import Mathlib

/-!
Shallow embedding of the progress-integrity core of the vigil-gov
repository (Next.js / TypeScript, Firestore-backed).

Numbers that the source manipulates as JS floats (percentages, monetary
amounts, distances, millisecond timestamps) are modelled as rationals
(`ℚ`) resp. integers (`ℤ`); the inputs that appear in the claims are
small integers on which JS float arithmetic is exact.  JS `undefined` /
"field absent" / "not a number" is modelled with `Option`.  The
haversine distance itself (transcendental, computed with `Math.sin` /
`Math.atan2` over floats in `lib/geo.ts` and `pages/api/visits.ts`) is
abstracted as an arbitrary function from coordinates to a rational
distance; every theorem about the geofence decision logic is proved for
every such distance function.

Firestore handlers are embedded as pure state-transition functions: the
documents a handler reads and writes become an explicit state record,
and the handler returns `(errorMessage?, newState)`, mirroring the
source's early-return structure (an error return leaves the state
exactly as it was, as in the source, where all writes happen after the
last guard of the modelled fragment).
-/

namespace VigilGov

/-- User roles, from `lib/types.ts` (`UserRole`). -/
inductive UserRole
  | JE | FE | SDO | EE | SE | CE | ADMIN
deriving DecidableEq, Repr

/-- Visit types, from `lib/types.ts` (`VisitType`). -/
inductive VisitType
  | site | office
deriving DecidableEq, Repr

/-- Verification-source tag, from `lib/types.ts` (`VerificationSource`). -/
inductive VerificationSource
  | site | office | unknown
deriving DecidableEq, Repr

/-- A stage document, from `lib/types.ts` (`Stage`), restricted to the
fields the progress subsystem reads or writes.  `Option` fields model
the optional (`?`) TypeScript fields. -/
structure Stage where
  weightPercent : ℚ := 0
  reportedProgressPercent : Option ℚ := none
  verifiedProgressPercent : Option ℚ := none
  verificationSource : VerificationSource := .unknown
  lastReportedBy : Option String := none
  lastReportedAt : Option ℤ := none
  lastVerifiedBy : Option String := none
  lastVerifiedAt : Option ℤ := none
deriving DecidableEq, Repr

/-- A visit event, from `lib/types.ts` (`Event` with `eventType = "visit"`),
restricted to the fields the recency guards read.  `createdAt` is a
millisecond timestamp. -/
structure Visit where
  visitType : VisitType
  faceVerified : Bool
  geoVerified : Bool
  createdAt : ℤ
deriving DecidableEq, Repr

/-- The 24-hour recency window in milliseconds: `ONE_DAY = 24*60*60*1000`
in `pages/api/events.ts` and `pages/api/sdo/verify-stage.ts`. -/
def ONE_DAY : ℤ := 24 * 60 * 60 * 1000

/-- Helper from `lib/progress.ts` (`clampPercent`): clamp a numeric
value into the 0–100 range.  The JS `!Number.isFinite(v) → 0` branch
has no counterpart on `ℚ`, where every value is finite. -/
def clampPercent (v : ℚ) : ℚ :=
  if v < 0 then 0 else if v > 100 then 100 else v

/-- Effective progress of a stage as computed by
`lib/progress.ts` (`getStageEffectiveProgress`): the SDO-verified
percent whenever the field is present (a JS `typeof ... === "number"`
test — it does NOT skip a present value of `0`), else the JE-reported
percent, else 0. -/
def getStageEffectiveProgress (stage : Stage) : ℚ :=
  match stage.verifiedProgressPercent with
  | some v => clampPercent v
  | none =>
    match stage.reportedProgressPercent with
    | some r => clampPercent r
    | none => 0

/-- The pure value computed by `lib/progress.ts`
(`recomputePackagePhysical`) and written to the package's
`physicalPercent`: weight-accumulate each stage's effective progress
(skipping falsy weights), then normalise by total weight; 0 for an
empty stage list or non-positive total weight. -/
def recomputePackagePhysical (stages : List Stage) : ℚ :=
  if stages.isEmpty then 0
  else
    let acc := stages.foldl
      (fun (a : ℚ × ℚ) st =>
        let w := st.weightPercent
        if w = 0 then a
        else (a.1 + w, a.2 + w * (getStageEffectiveProgress st / 100)))
      (0, 0)
    if 0 < acc.1 then clampPercent ((acc.2 / acc.1) * 100) else 0

/-- Effective progress of a stage as computed inside
`lib/progress.ts` (`computeProjectProgressBreakdown`):
`const effective = verified || reported` on the clamped values, i.e.
the clamped verified percent when it is non-zero (JS truthiness), else
the clamped reported percent. -/
def breakdownEffective (st : Stage) : ℚ :=
  let reported := clampPercent (st.reportedProgressPercent.getD 0)
  let verified := clampPercent (st.verifiedProgressPercent.getD 0)
  if verified = 0 then reported else verified

/-- The per-package physical percent (`pkgPhysical`) computed by the
breakdown path in `lib/progress.ts` (`computeProjectProgressBreakdown`):
same weighted accumulation as `recomputePackagePhysical` but with the
`verified || reported` effective-progress rule. -/
def breakdownPackagePhysical (stages : List Stage) : ℚ :=
  let acc := stages.foldl
    (fun (a : ℚ × ℚ) st =>
      let w := st.weightPercent
      if w = 0 then a
      else (a.1 + w, a.2 + w * (breakdownEffective st / 100)))
    (0, 0)
  if 0 < acc.1 then clampPercent ((acc.2 / acc.1) * 100) else 0

/-- The rollup scenario from the spec: stages
`[{weight:40, reported:50, verified:0}, {weight:60, reported:80, verified:90}]`. -/
def scenarioStages : List Stage :=
  [ { weightPercent := 40, reportedProgressPercent := some 50,
      verifiedProgressPercent := some 0 },
    { weightPercent := 60, reportedProgressPercent := some 80,
      verifiedProgressPercent := some 90 } ]

/-- A progress event appended to `projects/{id}/events` by the
events handler (`pages/api/events.ts`, step 7), restricted to the
fields the claims mention. -/
structure EventRecord where
  createdBy : String
  createdAt : ℤ
  reportedProgressPercent : ℚ
deriving DecidableEq, Repr

/-- The slice of the persistent store read and written by the events
handler for one submission: the target stage document, the project's
progress-event ledger, and the denormalized package/project
`physicalPercent` aggregates (which the handler never touches). -/
structure DbState where
  stage : Stage
  events : List EventRecord
  packagePhysicalPercent : ℚ
  projectPhysicalPercent : ℚ
deriving DecidableEq, Repr

/-- One JE/FE progress submission to `pages/api/events.ts`:
the caller's role and officer code, the parsed `jePercent` form field
(`none` models a missing/empty/non-numeric value, for which JS
`Number(...)` is `NaN`), whether a photo file was attached, and the
request time `Date.now()`. -/
structure JeSubmission where
  role : UserRole
  officerCode : String
  jePercent : Option ℚ
  photoPresent : Bool
  now : ℤ
deriving DecidableEq, Repr

/-- Role predicate from `pages/api/events.ts` (`isFieldRole`). -/
def isFieldRole (role : UserRole) : Bool :=
  match role with
  | .JE => true
  | .FE => true
  | _ => false

/-- The qualifying-visit predicate of the events handler
(`pages/api/events.ts`, step 3): the most recent visit must be a
site-type, face-verified, geo-verified visit no older than 24 hours
(the handler rejects when
`visitType !== "site" || faceVerified !== true || geoVerified !== true
|| Date.now() - createdAtMs > ONE_DAY`). -/
def visitQualifiesField (v : Visit) (now : ℤ) : Bool :=
  decide (v.visitType = VisitType.site) && v.faceVerified &&
    v.geoVerified && decide (now - v.createdAt ≤ ONE_DAY)

/-- The events handler (`pages/api/events.ts`), embedded from the parse
of `jePercent` onward: role gate, percent parse and bounding
(`Math.max(0, Math.min(100, parsed))`), recency guard on the most
recent visit (`lastVisit`), photo requirement, monotonicity check
against the stored `reportedProgressPercent`, then the event append and
the stage update — in exactly the source's order.  Returns the error
message (`none` on success) together with the resulting store slice;
every early return leaves the store unchanged, as in the source, where
all writes happen after the last of these guards. -/
def eventsHandler (sub : JeSubmission) (lastVisit : Option Visit)
    (s : DbState) : Option String × DbState :=
  if ¬ isFieldRole sub.role then (some "Only JE/FE allowed", s)
  else
    match sub.jePercent with
    | none => (some "Invalid JE percent (0-100 required).", s)
    | some parsed =>
      let boundedPercent := max 0 (min 100 parsed)
      match lastVisit with
      | none => (some "No site visit found. Do a face+geo visit first.", s)
      | some v =>
        if ¬ visitQualifiesField v sub.now then
          (some "A face+geo verified site visit (within 24 hours) is required before uploading progress.", s)
        else if ¬ sub.photoPresent then (some "Photo required", s)
        else
          let currentReported := s.stage.reportedProgressPercent.getD 0
          if boundedPercent < currentReported then
            (some "Progress cannot be reduced by JE. Contact SDO if correction is needed.", s)
          else
            let evt : EventRecord :=
              ⟨sub.officerCode, sub.now, boundedPercent⟩
            let stage' :=
              { s.stage with
                  reportedProgressPercent := some boundedPercent,
                  lastReportedBy := some sub.officerCode,
                  lastReportedAt := some sub.now }
            (none, { s with stage := stage', events := s.events ++ [evt] })

/-- The event document read and updated by
`pages/api/sdo/verify-stage.ts` (step 5), restricted to the fields that
handler reads or writes. -/
structure EventDoc where
  packageId : String
  stageId : String
  sdoVerifiedPercent : Option ℚ := none
  sdoVerifiedAt : Option ℤ := none
  sdoVerifiedBy : Option String := none
  sdoVerificationSource : Option VerificationSource := none
deriving DecidableEq, Repr

/-- The slice of the persistent store read and written by the
verify-stage handler: the referenced event document (`none` when
absent), the target stage document, and the denormalized
`physicalPercent` aggregates (never touched by this handler). -/
structure SdoDbState where
  event : Option EventDoc
  stage : Stage
  packagePhysicalPercent : ℚ
  projectPhysicalPercent : ℚ
deriving DecidableEq, Repr

/-- One SDO verify-stage request to `pages/api/sdo/verify-stage.ts`:
role, officer code, the parsed `percent` body field (`none` models a
value for which JS `Number(...)` is `NaN`), the referenced package and
stage ids, and the request time. -/
structure SdoRequest where
  role : UserRole
  officerCode : String
  percent : Option ℚ
  packageId : String
  stageId : String
  now : ℤ
deriving DecidableEq, Repr

/-- Role predicate from `pages/api/sdo/verify-stage.ts` (`isSDO`). -/
def isSDO (role : UserRole) : Bool :=
  match role with
  | .SDO => true
  | _ => false

/-- The verify-stage handler (`pages/api/sdo/verify-stage.ts`),
embedded from the body validation onward: role gate, percent range
check (reject when `NaN`, `< 0` or `> 100`), the visit guard — which
checks ONLY `faceVerified === true` and the 24-hour recency of the most
recent visit — the `verificationSource` tag (`"site"` iff the visit was
a geo-verified site visit, else `"office"`), the event lookup and
consistency check, then the event update and the stage mirror update,
in the source's order.  Returns the error message (`none` on success)
with the resulting store slice; every early return leaves the store
unchanged, as in the source. -/
def verifyStageHandler (req : SdoRequest) (lastVisit : Option Visit)
    (s : SdoDbState) : Option String × SdoDbState :=
  if ¬ isSDO req.role then (some "SDO only", s)
  else
    match req.percent with
    | none => (some "Invalid percent", s)
    | some verifiedPercent =>
      if verifiedPercent < 0 ∨ verifiedPercent > 100 then
        (some "Invalid percent", s)
      else
        match lastVisit with
        | none => (some "No recent visit found (SDO must visit within 24h)", s)
        | some v =>
          if ¬ (v.faceVerified && decide (req.now - v.createdAt ≤ ONE_DAY)) then
            (some "A face-verified visit within 24h is required.", s)
          else
            let verificationSource :=
              if v.visitType = VisitType.site ∧ v.geoVerified = true then
                VerificationSource.site
              else VerificationSource.office
            match s.event with
            | none => (some "Event not found", s)
            | some evt =>
              if evt.packageId ≠ req.packageId ∨ evt.stageId ≠ req.stageId then
                (some "Event does not match provided stage/package", s)
              else
                let evt' :=
                  { evt with
                      sdoVerifiedPercent := some verifiedPercent,
                      sdoVerifiedAt := some req.now,
                      sdoVerifiedBy := some req.officerCode,
                      sdoVerificationSource := some verificationSource }
                let stage' :=
                  { s.stage with
                      verifiedProgressPercent := some verifiedPercent,
                      verificationSource := verificationSource,
                      lastVerifiedBy := some req.officerCode,
                      lastVerifiedAt := some req.now }
                (none, { s with event := some evt', stage := stage' })

/-- The supervisory qualifying-visit predicate as the spec words it
(`faceVerified && (type==office || (type==site && geoVerified))`).
This definition follows the SPEC, not the source, and exists only to be
compared with what `verifyStageHandler` actually enforces. -/
def specSupervisoryVisitPredicate (v : Visit) : Bool :=
  v.faceVerified &&
    (decide (v.visitType = VisitType.office) ||
      (decide (v.visitType = VisitType.site) && v.geoVerified))

/-- Result of the create-stage handler
(`pages/api/ee/create-stage.ts`): the weights of the package's stages
after the insertion and the `totalWeightPercent` figure the handler
computes for its response. -/
structure CreateStageResult where
  stageWeights : List ℚ
  totalWeightPercent : ℚ
deriving DecidableEq, Repr

/-- The create-stage handler (`pages/api/ee/create-stage.ts`), embedded
from the body validation onward, acting on the weights of the package's
existing stages: reject an empty name, a non-positive `order`, or a
non-positive `weightPercent`; otherwise create the stage
unconditionally, then sum ALL stage weights (including the new one) —
the sum is only returned in the response, never compared against
anything. -/
def createStageHandler (name : String) (order : ℚ) (weightPercent : ℚ)
    (existingWeights : List ℚ) : Except String CreateStageResult :=
  if name = "" then Except.error "Stage name required"
  else if ¬ (0 < order) then Except.error "Invalid order"
  else if ¬ (0 < weightPercent) then Except.error "Invalid weightPercent"
  else
    let weights := existingWeights ++ [weightPercent]
    Except.ok ⟨weights, weights.foldl (· + ·) 0⟩

/-- The client-side incremental weight check in the project-page stage
form (`pages/project/[projectId].tsx`, `handleCreateStage`): the form
refuses to send the request when `currentTotalWeight + weight > 100`.
This check lives in one UI component only; the API handler has no
counterpart. -/
def projectPageWeightCheckPasses (currentTotalWeight weight : ℚ) : Bool :=
  decide (currentTotalWeight + weight ≤ 100)

/-- Risk tiers, from `lib/types.ts` (`riskLevel`). -/
inductive RiskLevel
  | low | medium | high
deriving DecidableEq, Repr

/-- Risk tier from the physical-financial gap as computed by
`pages/api/admin/projects.ts` (lines 172–179): `high` if `gap < -20`,
`medium` if `gap < -10`, else `low`. -/
def riskFromGap (gap : ℚ) : RiskLevel :=
  if gap < -20 then .high else if gap < -10 then .medium else .low

/-- Risk tier from the gap as computed by the PS reports page
(`pages/admin/reports/index.tsx`, lines 144–147): `high` if
`gap < -15`, `medium` if `gap < -5`, else `low`. -/
def strictRiskFromGap (gap : ℚ) : RiskLevel :=
  if gap < -15 then .high else if gap < -5 then .medium else .low

/-- A route point of a LINEAR project (`pages/api/visits.ts`,
`project.routePoints`).  `coords = none` models a point whose `lat` or
`lng` is not a usable number (the handler skips such points);
`active = none` models an absent `active` field. -/
structure RoutePoint where
  id : String
  name : String := ""
  coords : Option (ℚ × ℚ) := none
  active : Option Bool := none
deriving DecidableEq, Repr

/-- Geo-verification methods recorded on a visit
(`pages/api/visits.ts`, `geoMethod`). -/
inductive GeoMethod
  | POINT_RADIUS | ROUTE_CORRIDOR | NONE
deriving DecidableEq, Repr

/-- Outcome of the geo-verification step of the visits handler:
`geoVerified`, `geoMethod`, and the recorded `distanceMeters` /
`routePointId` when available. -/
structure GeoOutcome where
  geoVerified : Bool
  geoMethod : GeoMethod
  distanceMeters : Option ℚ
  routePointId : Option String
deriving DecidableEq, Repr

/-- The nearest-route-point loop of the visits handler
(`pages/api/visits.ts`, the `for (const rp of points)` loop):
walk the candidate list, skip points without usable coordinates, and
keep the strictly closest point seen so far (`if (d < bestDist)`).
`dist c` abstracts `haversineMeters(latN, lngN, c.1, c.2)`, the
haversine distance from the reported GPS point to coordinates `c`. -/
def findNearest (dist : ℚ × ℚ → ℚ) :
    List RoutePoint → Option (ℚ × RoutePoint) → Option (ℚ × RoutePoint)
  | [], best => best
  | rp :: rest, best =>
    match rp.coords with
    | none => findNearest dist rest best
    | some c =>
      let d := dist c
      match best with
      | none => findNearest dist rest (some (d, rp))
      | some (bestDist, bestRp) =>
        if d < bestDist then findNearest dist rest (some (d, rp))
        else findNearest dist rest (some (bestDist, bestRp))

/-- The LINEAR branch of the geo-verification step of the visits
handler (`pages/api/visits.ts`, step 7): filter the route points to
those with `active !== false`, fall back to all points when none
remain, find the nearest usable point, and verify against the corridor
radius (`siteRadiusMeters` when it is a number, else 300 m); when no
usable route point exists, fall back to the POINT check against
`siteCenter` + `siteRadiusMeters` when both are usable, else record no
geo check. -/
def linearGeoCheck (dist : ℚ × ℚ → ℚ) (routePoints : List RoutePoint)
    (siteCenter : Option (ℚ × ℚ)) (siteRadiusMeters : Option ℚ) :
    GeoOutcome :=
  let activePoints := routePoints.filter (fun rp => rp.active ≠ some false)
  let points := if activePoints.isEmpty then routePoints else activePoints
  match findNearest dist points none with
  | some (bestDist, bestRp) =>
    let corridor := siteRadiusMeters.getD 300
    ⟨decide (bestDist ≤ corridor), .ROUTE_CORRIDOR, some bestDist,
      some bestRp.id⟩
  | none =>
    match siteCenter, siteRadiusMeters with
    | some c, some r =>
      ⟨decide (dist c ≤ r), .POINT_RADIUS, some (dist c), none⟩
    | _, _ => ⟨false, .NONE, none, none⟩

/-- The POINT branch of the geo-verification step of the visits handler
(`pages/api/visits.ts`, step 7, the `else if` on `siteCenter`):
strictly `distance ≤ siteRadiusMeters`, no margin; requires usable
`siteCenter` and `siteRadiusMeters`. -/
def pointGeoCheck (dist : ℚ × ℚ → ℚ) (siteCenter : Option (ℚ × ℚ))
    (siteRadiusMeters : Option ℚ) : GeoOutcome :=
  match siteCenter, siteRadiusMeters with
  | some c, some r =>
    ⟨decide (dist c ≤ r), .POINT_RADIUS, some (dist c), none⟩
  | _, _ => ⟨false, .NONE, none, none⟩

/-- The separate radius-membership check of `lib/geo.ts`
(`isInsideProjectRadius`): false when `siteCenter` is absent or
`siteRadiusMeters` is falsy (absent or 0), else
`distance ≤ siteRadiusMeters + marginMeters` with a default 50 m
margin.  `dist c` abstracts `distanceMeters(center, point)`, the
haversine distance between the project center `c` and the queried
point. -/
def isInsideProjectRadius (dist : ℚ × ℚ → ℚ)
    (siteCenter : Option (ℚ × ℚ)) (siteRadiusMeters : Option ℚ)
    (marginMeters : ℚ := 50) : Bool :=
  match siteCenter, siteRadiusMeters with
  | some c, some r =>
    if r = 0 then false else decide (dist c ≤ r + marginMeters)
  | _, _ => false

/-- Clamped percentages are never negative. -/
lemma clampPercent_nonneg (v : ℚ) : 0 ≤ clampPercent v := by
  unfold clampPercent
  split
  · norm_num
  · split
    · norm_num
    · linarith [not_lt.mp (by assumption : ¬ v < 0)]

/-- C1 (counterexample): on the spec's rollup scenario the
package-physical recompute path (`recomputePackagePhysical`, built on
`getStageEffectiveProgress`) yields 54, not the claimed 74: for the
first stage `verifiedProgressPercent = 0` is present, so the recompute
path uses it (there is no `> 0` test in `getStageEffectiveProgress`),
giving effective progress 0 instead of the reported 50.  The breakdown
path does yield 74.  Hence the claim that both paths agree on 74 is
false. -/
theorem C1_effective_progress_counterexample :
    recomputePackagePhysical scenarioStages = 54 ∧
    recomputePackagePhysical scenarioStages ≠ 74 ∧
    breakdownPackagePhysical scenarioStages = 74 := by
  refine ⟨?_, ?_, ?_⟩
  · norm_num [recomputePackagePhysical, scenarioStages,
      getStageEffectiveProgress, clampPercent, List.foldl]
  · norm_num [recomputePackagePhysical, scenarioStages,
      getStageEffectiveProgress, clampPercent, List.foldl]
  · norm_num [breakdownPackagePhysical, scenarioStages,
      breakdownEffective, clampPercent, List.foldl]

/-- C1 (amended): the "verified if present and strictly positive, else
reported, else 0" effective-progress rule holds on the breakdown path
(`computeProjectProgressBreakdown`), whose per-stage effective value is
the clamped verified percent when positive and the clamped reported
percent otherwise (absent fields defaulting to 0); on the spec's rollup
scenario the breakdown path yields 74, while the package-physical
recompute path (`getStageEffectiveProgress`, which uses a present
verified percent even when it is 0) yields 54. -/
theorem C1_effective_progress_amended :
    (∀ st : Stage,
      breakdownEffective st =
        if 0 < clampPercent (st.verifiedProgressPercent.getD 0) then
          clampPercent (st.verifiedProgressPercent.getD 0)
        else
          clampPercent (st.reportedProgressPercent.getD 0)) ∧
    breakdownPackagePhysical scenarioStages = 74 ∧
    recomputePackagePhysical scenarioStages = 54 := by
  refine ⟨?_, ?_, ?_⟩
  · intro st
    by_cases h : clampPercent (st.verifiedProgressPercent.getD 0) = 0
    · simp [breakdownEffective, h]
    · have h0 : 0 ≤ clampPercent (st.verifiedProgressPercent.getD 0) :=
        clampPercent_nonneg _
      have hpos : 0 < clampPercent (st.verifiedProgressPercent.getD 0) :=
        lt_of_le_of_ne h0 (Ne.symm h)
      simp [breakdownEffective, h, hpos]
  · norm_num [breakdownPackagePhysical, scenarioStages,
      breakdownEffective, clampPercent, List.foldl]
  · norm_num [recomputePackagePhysical, scenarioStages,
      getStageEffectiveProgress, clampPercent, List.foldl]

/-- C1 (witness): the amended characterization applied to the
scenario's first stage (`reported 50`, `verified 0`): its breakdown
effective progress is the reported 50. -/
theorem C1_effective_progress_amended_witness :
    breakdownEffective
      { weightPercent := 40, reportedProgressPercent := some 50,
        verifiedProgressPercent := some 0 } = 50 := by
  rw [C1_effective_progress_amended.1]
  norm_num [clampPercent]

/-- C2 (counterexample): the verify-stage handler accepts a request
whose most recent visit is a face-verified SITE visit WITHOUT geo
verification — the visit violates the spec's supervisory predicate
`faceVerified && (type==office || (type==site && geoVerified))`, yet
the request succeeds and the stage is updated.  The handler checks only
`faceVerified` and the 24-hour recency. -/
theorem C2_supervisory_guard_counterexample :
    (verifyStageHandler ⟨UserRole.SDO, "SDO1", some 50, "PKG", "STG", 0⟩
        (some ⟨VisitType.site, true, false, 0⟩)
        ⟨some ⟨"PKG", "STG", none, none, none, none⟩, {}, 0, 0⟩).1 = none ∧
    (verifyStageHandler ⟨UserRole.SDO, "SDO1", some 50, "PKG", "STG", 0⟩
        (some ⟨VisitType.site, true, false, 0⟩)
        ⟨some ⟨"PKG", "STG", none, none, none, none⟩, {}, 0, 0⟩).2.stage.verifiedProgressPercent
      = some 50 ∧
    specSupervisoryVisitPredicate ⟨VisitType.site, true, false, 0⟩ = false := by
  refine ⟨by decide, by decide, by decide⟩

/-- C2 (amended): a stage-verification request by an SDO with an
in-range percent and a matching event is accepted iff the actor's most
recent visit has `faceVerified` and lies within the 24-hour window; the
`type==office || (type==site && geoVerified)` part of the spec's
predicate is NOT enforced and only selects the recorded
`verificationSource` (`site` iff the visit was a geo-verified site
visit, else `office`); every rejection leaves the stage and event state
unchanged. -/
theorem C2_supervisory_guard_amended
    (req : SdoRequest) (v : Visit) (s : SdoDbState) (p : ℚ) (evt : EventDoc)
    (hrole : req.role = UserRole.SDO)
    (hp : req.percent = some p)
    (hlo : 0 ≤ p) (hhi : p ≤ 100)
    (hevt : s.event = some evt)
    (hpkg : evt.packageId = req.packageId)
    (hstg : evt.stageId = req.stageId) :
    ((verifyStageHandler req (some v) s).1 = none ↔
      (v.faceVerified = true ∧ req.now - v.createdAt ≤ ONE_DAY)) ∧
    ((verifyStageHandler req (some v) s).1 = none →
      (verifyStageHandler req (some v) s).2.stage.verifiedProgressPercent = some p ∧
      (verifyStageHandler req (some v) s).2.stage.verificationSource =
        (if v.visitType = VisitType.site ∧ v.geoVerified = true
          then VerificationSource.site else VerificationSource.office)) ∧
    ((verifyStageHandler req (some v) s).1 ≠ none →
      (verifyStageHandler req (some v) s).2 = s) := by
  have hsdo : isSDO req.role = true := by simp [isSDO, hrole]
  have hnr : ¬ (p < 0 ∨ p > 100) := by
    push_neg
    exact ⟨hlo, hhi⟩
  by_cases hface : v.faceVerified = true
  · by_cases hrec : req.now - v.createdAt ≤ ONE_DAY
    · have hb : (v.faceVerified && decide (req.now - v.createdAt ≤ ONE_DAY)) = true := by
        simp [hface, hrec]
      simp [verifyStageHandler, hsdo, hp, hnr, hb, hevt, hpkg, hstg, hface, hrec]
    · have hb : (v.faceVerified && decide (req.now - v.createdAt ≤ ONE_DAY)) = false := by
        simp [hrec]
      simp [verifyStageHandler, hsdo, hp, hnr, hb, hevt, hrec]
  · have hf' : v.faceVerified = false := by
      cases hvf : v.faceVerified
      · rfl
      · exact absurd hvf hface
    have hb : (v.faceVerified && decide (req.now - v.createdAt ≤ ONE_DAY)) = false := by
      simp [hf']
    simp [verifyStageHandler, hsdo, hp, hnr, hb, hevt, hf']

/-- C2 (witness): the amended theorem applied to a concrete accepted
request — an office visit, face-verified, at the same instant. -/
theorem C2_supervisory_guard_amended_witness :
    (verifyStageHandler ⟨UserRole.SDO, "SDO2", some 40, "PKG2", "STG2", 5⟩
        (some ⟨VisitType.office, true, false, 5⟩)
        ⟨some ⟨"PKG2", "STG2", none, none, none, none⟩, {}, 0, 0⟩).1 = none :=
  ((C2_supervisory_guard_amended
      ⟨UserRole.SDO, "SDO2", some 40, "PKG2", "STG2", 5⟩
      ⟨VisitType.office, true, false, 5⟩
      ⟨some ⟨"PKG2", "STG2", none, none, none, none⟩, {}, 0, 0⟩
      40 ⟨"PKG2", "STG2", none, none, none, none⟩
      rfl rfl (by norm_num) (by norm_num) rfl rfl rfl).1).mpr
    ⟨rfl, by decide⟩

/-- C3 (counterexample): an accepted JE progress submission updates the
stage's `reportedProgressPercent` but leaves the package's denormalized
`physicalPercent` untouched: starting from a consistent state (one
stage of weight 100 at 0 %, package `physicalPercent` 0), submitting
50 % is accepted, the rollup value of the updated stage list is 50, yet
the stored package `physicalPercent` is still 0.  No recomputation is
triggered by the write, contradicting the claim. -/
theorem C3_rollup_sync_counterexample :
    (eventsHandler ⟨UserRole.JE, "JE3", some 50, true, 0⟩
        (some ⟨VisitType.site, true, true, 0⟩)
        ⟨{ weightPercent := 100, reportedProgressPercent := some 0 }, [], 0, 0⟩).1 = none ∧
    (eventsHandler ⟨UserRole.JE, "JE3", some 50, true, 0⟩
        (some ⟨VisitType.site, true, true, 0⟩)
        ⟨{ weightPercent := 100, reportedProgressPercent := some 0 }, [], 0, 0⟩).2.packagePhysicalPercent = 0 ∧
    recomputePackagePhysical
      [(eventsHandler ⟨UserRole.JE, "JE3", some 50, true, 0⟩
          (some ⟨VisitType.site, true, true, 0⟩)
          ⟨{ weightPercent := 100, reportedProgressPercent := some 0 }, [], 0, 0⟩).2.stage] = 50 := by
  have hr : eventsHandler ⟨UserRole.JE, "JE3", some 50, true, 0⟩
      (some ⟨VisitType.site, true, true, 0⟩)
      ⟨{ weightPercent := 100, reportedProgressPercent := some 0 }, [], 0, 0⟩ =
      (none,
        ⟨{ weightPercent := 100, reportedProgressPercent := some 50,
           lastReportedBy := some "JE3", lastReportedAt := some 0 },
         [⟨"JE3", 0, 50⟩], 0, 0⟩) := by
    decide
  refine ⟨by rw [hr], by rw [hr], ?_⟩
  rw [hr]
  norm_num [recomputePackagePhysical, getStageEffectiveProgress,
    clampPercent, List.foldl]

/-- C3 (amended): neither the events handler (JE progress write) nor
the verify-stage handler (SDO verification write) triggers any rollup
recomputation: on every input — accepted or rejected — both leave the
denormalized package and project `physicalPercent` exactly as they
were.  (The rollup functions of `lib/progress.ts` exist but are called
from no handler; the payments handler separately maintains
`financialPercent` with its own local helpers.) -/
theorem C3_rollup_sync_amended :
    (∀ (sub : JeSubmission) (lastVisit : Option Visit) (s : DbState),
      (eventsHandler sub lastVisit s).2.packagePhysicalPercent =
        s.packagePhysicalPercent ∧
      (eventsHandler sub lastVisit s).2.projectPhysicalPercent =
        s.projectPhysicalPercent) ∧
    (∀ (req : SdoRequest) (lastVisit : Option Visit) (s : SdoDbState),
      (verifyStageHandler req lastVisit s).2.packagePhysicalPercent =
        s.packagePhysicalPercent ∧
      (verifyStageHandler req lastVisit s).2.projectPhysicalPercent =
        s.projectPhysicalPercent) := by
  constructor
  · intro sub lastVisit s
    refine ⟨?_, ?_⟩ <;>
    · unfold eventsHandler
      dsimp only
      repeat' split
      all_goals rfl
  · intro req lastVisit s
    refine ⟨?_, ?_⟩ <;>
    · unfold verifyStageHandler
      dsimp only
      repeat' split
      all_goals rfl

/-- C3 (witness): the amended theorem applied to a concrete accepted
submission: the package `physicalPercent` is unchanged by the write. -/
theorem C3_rollup_sync_amended_witness :
    (eventsHandler ⟨UserRole.FE, "FE3", some 10, true, 0⟩
        (some ⟨VisitType.site, true, true, 0⟩)
        ⟨{ weightPercent := 100 }, [], 7, 9⟩).2.packagePhysicalPercent = 7 :=
  (C3_rollup_sync_amended.1 ⟨UserRole.FE, "FE3", some 10, true, 0⟩
    (some ⟨VisitType.site, true, true, 0⟩)
    ⟨{ weightPercent := 100 }, [], 7, 9⟩).1

/-- C4 (counterexample): the create-stage API handler accepts a new
stage of weight 60 in a package whose existing stages already weigh 60:
the request succeeds and the handler's own response reports the total
weight 120 > 100.  No incremental (or any) weight-sum check rejects the
request. -/
theorem C4_weight_check_counterexample :
    createStageHandler "Foundation" 1 60 [60] =
      Except.ok ⟨[60, 60], 120⟩ ∧ (100 : ℚ) < 120 := by
  constructor
  · unfold createStageHandler
    rw [if_neg (by decide), if_neg (by norm_num), if_neg (by norm_num)]
    norm_num [List.foldl]
  · norm_num

/-- C4 (amended): the create-stage API handler
(`pages/api/ee/create-stage.ts`) validates only that the name is
non-empty and that `order` and `weightPercent` are positive; it creates
the stage unconditionally and merely reports the resulting total weight
in its response, never rejecting on `new + existing > 100`.  The
incremental `new + existing ≤ 100` check exists only in one client-side
form (the project-page stage form); no server-side or global
re-validation exists. -/
theorem C4_weight_check_amended
    (name : String) (order w : ℚ) (existingWeights : List ℚ)
    (hname : name ≠ "") (horder : 0 < order) (hw : 0 < w) :
    createStageHandler name order w existingWeights =
      Except.ok ⟨existingWeights ++ [w],
        (existingWeights ++ [w]).foldl (· + ·) 0⟩ ∧
    projectPageWeightCheckPasses (existingWeights.foldl (· + ·) 0) w =
      decide (existingWeights.foldl (· + ·) 0 + w ≤ 100) := by
  constructor
  · unfold createStageHandler
    rw [if_neg hname, if_neg (by simpa using horder), if_neg (by simpa using hw)]
  · rfl

/-- C4 (witness): the amended theorem applied to the over-100 input:
the server accepts a second stage of weight 60 next to an existing
weight-60 stage, while the client-side form check refuses the same
input. -/
theorem C4_weight_check_amended_witness :
    createStageHandler "Foundation" 1 60 [60] =
      Except.ok ⟨[60] ++ [60], ([60] ++ [60]).foldl (· + ·) 0⟩ ∧
    projectPageWeightCheckPasses ([(60 : ℚ)].foldl (· + ·) 0) 60 =
      decide (([(60 : ℚ)].foldl (· + ·) 0) + 60 ≤ 100) :=
  C4_weight_check_amended "Foundation" 1 60 [60]
    (by decide) (by norm_num) (by norm_num)

/-- C5 (counterexample): under the strict threshold pair (−15/−5) of
the PS reports page, a gap of −12 classifies as `medium`, not `high` as
the claim states (−12 is not below −15). -/
theorem C5_risk_tier_counterexample :
    strictRiskFromGap (-12) = RiskLevel.medium ∧
    strictRiskFromGap (-12) ≠ RiskLevel.high := by
  have h : strictRiskFromGap (-12) = RiskLevel.medium := by
    norm_num [strictRiskFromGap]
  exact ⟨h, by rw [h]; decide⟩

/-- C5 (amended): the admin-projects risk classifier uses the lenient
pair (`high` iff gap < −20, `medium` iff −20 ≤ gap < −10) and the PS
reports page the strict pair (`high` iff gap < −15, `medium` iff
−15 ≤ gap < −5); a gap of −12 is `medium` under BOTH pairs; the two
policies do diverge, e.g. at gap = −17 (`medium` lenient, `high`
strict). -/
theorem C5_risk_tier_amended :
    (∀ gap : ℚ,
      (riskFromGap gap = RiskLevel.high ↔ gap < -20) ∧
      (riskFromGap gap = RiskLevel.medium ↔ -20 ≤ gap ∧ gap < -10)) ∧
    (∀ gap : ℚ,
      (strictRiskFromGap gap = RiskLevel.high ↔ gap < -15) ∧
      (strictRiskFromGap gap = RiskLevel.medium ↔ -15 ≤ gap ∧ gap < -5)) ∧
    riskFromGap (-12) = RiskLevel.medium ∧
    strictRiskFromGap (-12) = RiskLevel.medium ∧
    riskFromGap (-17) = RiskLevel.medium ∧
    strictRiskFromGap (-17) = RiskLevel.high := by
  refine ⟨?_, ?_, ?_, ?_, ?_, ?_⟩
  · intro gap
    unfold riskFromGap
    constructor <;> constructor <;> intro h
    · by_contra hn
      revert h
      split_ifs <;> simp_all <;> linarith
    · rw [if_pos h]
    · revert h
      split_ifs <;> simp_all <;> constructor <;> linarith
    · rw [if_neg (by linarith [h.1]), if_pos h.2]
  · intro gap
    unfold strictRiskFromGap
    constructor <;> constructor <;> intro h
    · by_contra hn
      revert h
      split_ifs <;> simp_all <;> linarith
    · rw [if_pos h]
    · revert h
      split_ifs <;> simp_all <;> constructor <;> linarith
    · rw [if_neg (by linarith [h.1]), if_pos h.2]
  · norm_num [riskFromGap]
  · norm_num [strictRiskFromGap]
  · norm_num [riskFromGap]
  · norm_num [strictRiskFromGap]

/-- C5 (witness): the amended theorem applied at gap = −21: `high`
under the lenient classifier, by the amended characterization. -/
theorem C5_risk_tier_amended_witness :
    riskFromGap (-21) = RiskLevel.high :=
  ((C5_risk_tier_amended.1 (-21)).1).mpr (by norm_num)

/-- C6 (confirmed): for a field actor's submission that has passed the
role, percent-parse, visit and photo guards, the events handler rejects
— leaving the stage document, its provenance stamps and the event
ledger entirely unchanged — exactly when the bounded percent is
strictly below the stored `reportedProgressPercent` (absent treated as
0); otherwise it accepts, stores the bounded percent and appends one
progress event, so the stored value never decreases across accepted
submissions. -/
theorem C6_reported_progress_monotonic
    (sub : JeSubmission) (v : Visit) (s : DbState) (p : ℚ)
    (hrole : isFieldRole sub.role = true)
    (hp : sub.jePercent = some p)
    (hv : visitQualifiesField v sub.now = true)
    (hphoto : sub.photoPresent = true) :
    (max 0 (min 100 p) < s.stage.reportedProgressPercent.getD 0 →
      (eventsHandler sub (some v) s).1.isSome = true ∧
      (eventsHandler sub (some v) s).2 = s) ∧
    (s.stage.reportedProgressPercent.getD 0 ≤ max 0 (min 100 p) →
      (eventsHandler sub (some v) s).1 = none ∧
      (eventsHandler sub (some v) s).2.stage.reportedProgressPercent =
        some (max 0 (min 100 p)) ∧
      (eventsHandler sub (some v) s).2.events =
        s.events ++ [⟨sub.officerCode, sub.now, max 0 (min 100 p)⟩]) := by
  by_cases hlt : max 0 (min 100 p) < s.stage.reportedProgressPercent.getD 0
  · have hres : eventsHandler sub (some v) s =
        (some "Progress cannot be reduced by JE. Contact SDO if correction is needed.", s) := by
      simp [eventsHandler, hrole, hp, hv, hphoto, hlt]
    constructor
    · intro _
      rw [hres]
      exact ⟨rfl, rfl⟩
    · intro hle
      exact absurd hlt (not_lt.mpr hle)
  · constructor
    · intro h
      exact absurd h hlt
    · intro _
      simp [eventsHandler, hrole, hp, hv, hphoto, hlt]

/-- C6 (witness): the monotonicity theorem applied to a concrete
rejected submission (stored 60, submitted 40): the store is unchanged. -/
theorem C6_reported_progress_monotonic_witness :
    (eventsHandler ⟨UserRole.JE, "JE6", some 40, true, 0⟩
        (some ⟨VisitType.site, true, true, 0⟩)
        ⟨{ weightPercent := 100, reportedProgressPercent := some 60 }, [], 0, 0⟩).2 =
      ⟨{ weightPercent := 100, reportedProgressPercent := some 60 }, [], 0, 0⟩ :=
  ((C6_reported_progress_monotonic
      ⟨UserRole.JE, "JE6", some 40, true, 0⟩ ⟨VisitType.site, true, true, 0⟩
      ⟨{ weightPercent := 100, reportedProgressPercent := some 60 }, [], 0, 0⟩
      40 rfl rfl (by decide) rfl).1 (by norm_num)).2

/-- C7 (confirmed): for a field actor's submission with a valid
percent, a photo, and a monotonicity-compatible value, the events
handler accepts exactly when the most recent visit satisfies
`type==site && faceVerified && geoVerified` and lies within the fixed
24-hour window; and for the window boundary, a visit at time T
qualifies an action at T+23h59m (86,340,000 ms later) and does not
qualify one at T+24h01m (86,460,000 ms later). -/
theorem C7_field_visit_recency
    (sub : JeSubmission) (lastVisit : Option Visit) (s : DbState) (p : ℚ)
    (hrole : isFieldRole sub.role = true)
    (hp : sub.jePercent = some p)
    (hphoto : sub.photoPresent = true)
    (hmono : s.stage.reportedProgressPercent.getD 0 ≤ max 0 (min 100 p)) :
    ((eventsHandler sub lastVisit s).1 = none ↔
      ∃ v, lastVisit = some v ∧ visitQualifiesField v sub.now = true) ∧
    (∀ T : ℤ,
      visitQualifiesField ⟨VisitType.site, true, true, T⟩ (T + 86340000) = true ∧
      visitQualifiesField ⟨VisitType.site, true, true, T⟩ (T + 86460000) = false) := by
  constructor
  · cases lastVisit with
    | none =>
      simp [eventsHandler, hrole, hp]
    | some v =>
      by_cases hv : visitQualifiesField v sub.now = true
      · simp [eventsHandler, hrole, hp, hv, hphoto, not_lt.mpr hmono]
      · simp [eventsHandler, hrole, hp, hv]
  · intro T
    constructor
    · simp only [visitQualifiesField, ONE_DAY]
      norm_num
    · simp only [visitQualifiesField, ONE_DAY]
      norm_num

/-- C7 (witness): the recency theorem applied to a concrete submission
whose qualifying site visit happened 23 h 59 m earlier: accepted. -/
theorem C7_field_visit_recency_witness :
    (eventsHandler ⟨UserRole.JE, "JE77", some 20, true, 86340000⟩
        (some ⟨VisitType.site, true, true, 0⟩) ⟨{}, [], 0, 0⟩).1 = none := by
  have h := C7_field_visit_recency
    ⟨UserRole.JE, "JE77", some 20, true, 86340000⟩
    (some ⟨VisitType.site, true, true, 0⟩) ⟨{}, [], 0, 0⟩
    20 rfl rfl rfl (by norm_num)
  exact h.1.mpr ⟨⟨VisitType.site, true, true, 0⟩, rfl,
    by simpa using (h.2 0).1⟩

/-- C10 (confirmed): the two percent validations are asymmetric.  The
field path (events handler) rejects only a missing/non-numeric
`jePercent` and otherwise silently bounds the value into [0,100] before
the monotonicity check — a submission of 150 is accepted and stored as
100 — while the supervisory path (verify-stage handler) rejects any
percent outside [0,100] with a validation error and no state change,
e.g. 150. -/
theorem C10_percent_validation_asymmetry :
    (∀ (sub : JeSubmission) (v : Visit) (s : DbState) (p : ℚ),
      isFieldRole sub.role = true → sub.jePercent = some p →
      visitQualifiesField v sub.now = true → sub.photoPresent = true →
      s.stage.reportedProgressPercent.getD 0 ≤ max 0 (min 100 p) →
      (eventsHandler sub (some v) s).1 = none ∧
      (eventsHandler sub (some v) s).2.stage.reportedProgressPercent =
        some (max 0 (min 100 p))) ∧
    (∀ (req : SdoRequest) (lastVisit : Option Visit) (s : SdoDbState) (q : ℚ),
      req.role = UserRole.SDO → req.percent = some q →
      (q < 0 ∨ 100 < q) →
      (verifyStageHandler req lastVisit s).1 = some "Invalid percent" ∧
      (verifyStageHandler req lastVisit s).2 = s) ∧
    (eventsHandler ⟨UserRole.JE, "JE10", some 150, true, 0⟩
        (some ⟨VisitType.site, true, true, 0⟩)
        ⟨{}, [], 0, 0⟩).1 = none ∧
    (eventsHandler ⟨UserRole.JE, "JE10", some 150, true, 0⟩
        (some ⟨VisitType.site, true, true, 0⟩)
        ⟨{}, [], 0, 0⟩).2.stage.reportedProgressPercent = some 100 ∧
    (verifyStageHandler ⟨UserRole.SDO, "SDO10", some 150, "PKG", "STG", 0⟩
        (some ⟨VisitType.office, true, false, 0⟩)
        ⟨some ⟨"PKG", "STG", none, none, none, none⟩, {}, 0, 0⟩).1 =
      some "Invalid percent" := by
  refine ⟨?_, ?_, by decide, by decide, by decide⟩
  · intro sub v s p hrole hp hv hphoto hmono
    simp [eventsHandler, hrole, hp, hv, hphoto, not_lt.mpr hmono]
  · intro req lastVisit s q hrole hq hout
    have hsdo : isSDO req.role = true := by simp [isSDO, hrole]
    have hcond : q < 0 ∨ q > 100 := hout
    simp [verifyStageHandler, hsdo, hq, hcond]

/-- C10 (witness): the asymmetry theorem applied concretely: a
supervisory percent of 101 is rejected with no state change. -/
theorem C10_percent_validation_asymmetry_witness :
    (verifyStageHandler ⟨UserRole.SDO, "SDO11", some 101, "P", "S", 0⟩
        none ⟨none, {}, 0, 0⟩).1 = some "Invalid percent" :=
  (C10_percent_validation_asymmetry.2.1
    ⟨UserRole.SDO, "SDO11", some 101, "P", "S", 0⟩ none ⟨none, {}, 0, 0⟩
    101 rfl rfl (Or.inr (by norm_num))).1

/-- Walking the route-point list never changes a `none` accumulator
when no point has usable coordinates. -/
lemma findNearest_all_none (dist : ℚ × ℚ → ℚ) :
    ∀ (ps : List RoutePoint) (acc : Option (ℚ × RoutePoint)),
      (∀ rp ∈ ps, rp.coords = none) → findNearest dist ps acc = acc := by
  intro ps
  induction ps with
  | nil => intro acc _; rfl
  | cons rp rest ih =>
    intro acc h
    have hc : rp.coords = none := h rp (List.mem_cons_self rp rest)
    have hrest : ∀ q ∈ rest, q.coords = none :=
      fun q hq => h q (List.mem_cons_of_mem rp hq)
    simp [findNearest, hc, ih acc hrest]

/-- Minimality of the nearest-route-point loop: a returned best
distance is a lower bound on the distance of every candidate with
usable coordinates, and on the incoming accumulator's distance. -/
lemma findNearest_min (dist : ℚ × ℚ → ℚ) :
    ∀ (ps : List RoutePoint) (acc : Option (ℚ × RoutePoint)) (bd : ℚ)
      (brp : RoutePoint),
      findNearest dist ps acc = some (bd, brp) →
      (∀ rp ∈ ps, ∀ c, rp.coords = some c → bd ≤ dist c) ∧
      (∀ ad arp, acc = some (ad, arp) → bd ≤ ad) := by
  intro ps
  induction ps with
  | nil =>
    intro acc bd brp h
    refine ⟨by simp, ?_⟩
    intro ad arp hacc
    rw [hacc] at h
    simp [findNearest] at h
    exact le_of_eq h.1.symm
  | cons rp rest ih =>
    intro acc bd brp h
    cases hc : rp.coords with
    | none =>
      rw [findNearest, hc] at h
      obtain ⟨hmin, hacc⟩ := ih acc bd brp h
      refine ⟨?_, hacc⟩
      intro q hq c hqc
      rcases List.mem_cons.mp hq with rfl | hq'
      · rw [hc] at hqc; exact absurd hqc (by simp)
      · exact hmin q hq' c hqc
    | some c =>
      cases acc with
      | none =>
        rw [findNearest, hc] at h
        obtain ⟨hmin, hacc⟩ := ih (some (dist c, rp)) bd brp h
        have hbd : bd ≤ dist c := hacc (dist c) rp rfl
        refine ⟨?_, by simp⟩
        intro q hq c' hqc
        rcases List.mem_cons.mp hq with rfl | hq'
        · rw [hc] at hqc
          injection hqc with hcc
          rw [← hcc]; exact hbd
        · exact hmin q hq' c' hqc
      | some pair =>
        obtain ⟨ad, arp⟩ := pair
        simp only [findNearest, hc] at h
        by_cases hlt : dist c < ad
        · rw [if_pos hlt] at h
          obtain ⟨hmin, hacc⟩ := ih (some (dist c, rp)) bd brp h
          have hbd : bd ≤ dist c := hacc (dist c) rp rfl
          refine ⟨?_, ?_⟩
          · intro q hq c' hqc
            rcases List.mem_cons.mp hq with rfl | hq'
            · rw [hc] at hqc
              injection hqc with hcc
              rw [← hcc]; exact hbd
            · exact hmin q hq' c' hqc
          · intro ad' arp' hacc'
            injection hacc' with hpair
            injection hpair with h1 h2
            rw [← h1]
            exact le_of_lt (lt_of_le_of_lt hbd hlt)
        · rw [if_neg hlt] at h
          obtain ⟨hmin, hacc⟩ := ih (some (ad, arp)) bd brp h
          have hbd : bd ≤ ad := hacc ad arp rfl
          refine ⟨?_, ?_⟩
          · intro q hq c' hqc
            rcases List.mem_cons.mp hq with rfl | hq'
            · rw [hc] at hqc
              injection hqc with hcc
              rw [← hcc]
              exact le_trans hbd (not_lt.mp hlt)
            · exact hmin q hq' c' hqc
          · intro ad' arp' hacc'
            injection hacc' with hpair
            injection hpair with h1 h2
            rw [← h1]
            exact hbd

/-- Provenance of the nearest-route-point loop: a returned best pair is
either the untouched accumulator or an element of the candidate list
with usable coordinates realising the returned distance. -/
lemma findNearest_mem (dist : ℚ × ℚ → ℚ) :
    ∀ (ps : List RoutePoint) (acc : Option (ℚ × RoutePoint)) (bd : ℚ)
      (brp : RoutePoint),
      findNearest dist ps acc = some (bd, brp) →
      acc = some (bd, brp) ∨
      (brp ∈ ps ∧ ∃ c, brp.coords = some c ∧ bd = dist c) := by
  intro ps
  induction ps with
  | nil =>
    intro acc bd brp h
    exact Or.inl h
  | cons rp rest ih =>
    intro acc bd brp h
    cases hc : rp.coords with
    | none =>
      rw [findNearest, hc] at h
      rcases ih acc bd brp h with hl | ⟨hm, hex⟩
      · exact Or.inl hl
      · exact Or.inr ⟨List.mem_cons_of_mem rp hm, hex⟩
    | some c =>
      cases acc with
      | none =>
        rw [findNearest, hc] at h
        rcases ih (some (dist c, rp)) bd brp h with hl | ⟨hm, hex⟩
        · injection hl with hpair
          injection hpair with h1 h2
          exact Or.inr ⟨by rw [← h2]; exact List.mem_cons_self rp rest,
            c, by rw [← h2]; exact hc, h1.symm⟩
        · exact Or.inr ⟨List.mem_cons_of_mem rp hm, hex⟩
      | some pair =>
        obtain ⟨ad, arp⟩ := pair
        simp only [findNearest, hc] at h
        by_cases hlt : dist c < ad
        · rw [if_pos hlt] at h
          rcases ih (some (dist c, rp)) bd brp h with hl | ⟨hm, hex⟩
          · injection hl with hpair
            injection hpair with h1 h2
            exact Or.inr ⟨by rw [← h2]; exact List.mem_cons_self rp rest,
              c, by rw [← h2]; exact hc, h1.symm⟩
          · exact Or.inr ⟨List.mem_cons_of_mem rp hm, hex⟩
        · rw [if_neg hlt] at h
          rcases ih (some (ad, arp)) bd brp h with hl | ⟨hm, hex⟩
          · exact Or.inl hl
          · exact Or.inr ⟨List.mem_cons_of_mem rp hm, hex⟩

/-- C8 (confirmed): for a LINEAR geo check, whenever the route-corridor
branch fires with recorded distance `bd`, that distance is a global
lower bound on the distance to every usable candidate among the
`active !== false` route points (all points when none are active), it
is realised by a candidate whose id is recorded, and `geoVerified` is
exactly `bd ≤ corridor` with `corridor = siteRadiusMeters` defaulting
to 300 m; and when no usable route point exists, the check falls back
to the POINT decision against `siteCenter`/`siteRadiusMeters`. -/
theorem C8_linear_route_argmin
    (dist : ℚ × ℚ → ℚ) (routePoints : List RoutePoint)
    (siteCenter : Option (ℚ × ℚ)) (siteRadiusMeters : Option ℚ) :
    (∀ bd : ℚ,
      (linearGeoCheck dist routePoints siteCenter siteRadiusMeters).geoMethod =
        GeoMethod.ROUTE_CORRIDOR →
      (linearGeoCheck dist routePoints siteCenter siteRadiusMeters).distanceMeters =
        some bd →
      (∀ rp ∈ (if (routePoints.filter fun q => q.active ≠ some false).isEmpty
                then routePoints
                else routePoints.filter fun q => q.active ≠ some false),
        ∀ c, rp.coords = some c → bd ≤ dist c) ∧
      (linearGeoCheck dist routePoints siteCenter siteRadiusMeters).geoVerified =
        decide (bd ≤ siteRadiusMeters.getD 300) ∧
      (∃ rp ∈ (if (routePoints.filter fun q => q.active ≠ some false).isEmpty
                then routePoints
                else routePoints.filter fun q => q.active ≠ some false),
        ∃ c, rp.coords = some c ∧ bd = dist c ∧
          (linearGeoCheck dist routePoints siteCenter siteRadiusMeters).routePointId =
            some rp.id)) ∧
    ((∀ rp ∈ (if (routePoints.filter fun q => q.active ≠ some false).isEmpty
                then routePoints
                else routePoints.filter fun q => q.active ≠ some false),
        rp.coords = none) →
      ∀ c r, siteCenter = some c → siteRadiusMeters = some r →
        linearGeoCheck dist routePoints siteCenter siteRadiusMeters =
          ⟨decide (dist c ≤ r), GeoMethod.POINT_RADIUS, some (dist c), none⟩) := by
  constructor
  · intro bd hmethod hdist
    cases hfn : findNearest dist
        (if (routePoints.filter fun q => q.active ≠ some false).isEmpty
          then routePoints
          else routePoints.filter fun q => q.active ≠ some false) none with
    | none =>
      exfalso
      simp only [linearGeoCheck, hfn] at hmethod
      cases siteCenter <;> cases siteRadiusMeters <;> simp at hmethod
    | some pair =>
      obtain ⟨bestDist, bestRp⟩ := pair
      have hout : linearGeoCheck dist routePoints siteCenter siteRadiusMeters =
          ⟨decide (bestDist ≤ siteRadiusMeters.getD 300), GeoMethod.ROUTE_CORRIDOR,
            some bestDist, some bestRp.id⟩ := by
        simp only [linearGeoCheck, hfn]
      rw [hout] at hdist
      have hbd : bestDist = bd := by
        injection hdist
      subst hbd
      obtain ⟨hmin, -⟩ := findNearest_min dist _ none bestDist bestRp hfn
      rcases findNearest_mem dist _ none bestDist bestRp hfn with
        hl | ⟨hm, c, hcoords, hbd'⟩
      · exact absurd hl (by simp)
      · exact ⟨hmin, by rw [hout], bestRp, hm, c, hcoords, hbd', by rw [hout]⟩
  · intro hnone c r hc hr
    have hfn : findNearest dist
        (if (routePoints.filter fun q => q.active ≠ some false).isEmpty
          then routePoints
          else routePoints.filter fun q => q.active ≠ some false) none = none :=
      findNearest_all_none dist _ none hnone
    simp only [linearGeoCheck, hfn, hc, hr]

/-- C8 (witness): the argmin theorem applied to a concrete distance
function and route list — the inactive 50 m point is excluded, the
nearest active point (100 m) wins over the 400 m one, and with no
`siteRadiusMeters` the corridor defaults to 300 m, so the visit is
geo-verified. -/
theorem C8_linear_route_argmin_witness :
    (linearGeoCheck (fun c => c.1)
        [⟨"a", "", some (400, 0), none⟩, ⟨"b", "", some (100, 0), some true⟩,
          ⟨"c", "", some (50, 0), some false⟩] none none).geoVerified =
      decide ((100 : ℚ) ≤ Option.getD (none : Option ℚ) 300) :=
  ((C8_linear_route_argmin (fun c => c.1)
      [⟨"a", "", some (400, 0), none⟩, ⟨"b", "", some (100, 0), some true⟩,
        ⟨"c", "", some (50, 0), some false⟩] none none).1 100
    (by decide) (by decide)).2.1

/-- C9 (confirmed): the visit-time POINT geofence decision is strictly
`distance ≤ siteRadiusMeters` with no margin, while `lib/geo.ts`'s
separate radius-membership check allows `distance ≤ radius + 50`; for a
point 230 m from the centre of a 200 m-radius site the visit check
yields `geoVerified = false` and the margin-based membership check
yields `true`. -/
theorem C9_point_policy_divergence :
    (∀ (dist : ℚ × ℚ → ℚ) (c : ℚ × ℚ) (r : ℚ),
      (pointGeoCheck dist (some c) (some r)).geoVerified =
        decide (dist c ≤ r)) ∧
    (∀ (dist : ℚ × ℚ → ℚ) (c : ℚ × ℚ) (r : ℚ), r ≠ 0 →
      isInsideProjectRadius dist (some c) (some r) 50 =
        decide (dist c ≤ r + 50)) ∧
    (pointGeoCheck (fun _ => 230) (some (0, 0)) (some 200)).geoVerified = false ∧
    isInsideProjectRadius (fun _ => 230) (some (0, 0)) (some 200) 50 = true := by
  refine ⟨?_, ?_, by decide, by norm_num [isInsideProjectRadius]⟩
  · intro dist c r
    rfl
  · intro dist c r hr
    simp [isInsideProjectRadius, hr]

/-- C9 (witness): the policy theorem applied to a concrete distance of
240 m against a 200 m radius: the margin-based membership check reduces
to `240 ≤ 250`. -/
theorem C9_point_policy_divergence_witness :
    isInsideProjectRadius (fun x => 240) (some (0, 0)) (some 200) 50 =
      decide ((240 : ℚ) ≤ 200 + 50) :=
  C9_point_policy_divergence.2.1 (fun x => 240) (0, 0) 200 (by norm_num)

end VigilGov
